import Mathlib

/-!
# Verification of the pfdirs multi-source directory resolver

Shallow embedding of `src/main.rs` of the `pfdirs` tool. Each OS facility the
program consults (environment variables, `SHGetKnownFolderPath`, the
`known-folders` crate, `SHGetFolderPathW`, and the registry) is modelled as an
oracle record, and each `report_*` function of the source becomes a pure
function of the corresponding oracle. Side effects that the claims are about
are made explicit:

* printed report lines become the returned list of `(label, item)` pairs;
* the `CoStr` destructor (which calls `CoTaskMemFree`) becomes an explicit
  trace of freed pointers returned alongside the result;
* the `panic!` in `report_known_folders` becomes the `mismatch` constructor of
  the outcome type, carrying the diagnostic payload of both strategies.

Wide strings are lists of UTF-16 code units (`Nat` below `2^16`); decoded text
is a list of Unicode scalar values, so textual comparison of paths is list
equality. `decodeUtf16` models both `String::from_utf16` (used by
`PWSTR::to_string` / `PCWSTR::to_string`) and `OsStr::to_str` on Windows
(WTF-8 to UTF-8 conversion succeeds exactly when the original UTF-16 data has
no unpaired surrogates).
-/

/-- A raw pointer returned by the OS allocator, abstracted as an identifier. -/
abbrev Ptr := Nat

/-- A wide string: UTF-16 code units (without the trailing NUL). -/
abbrev WStr := List Nat

/-- Decoded text: a list of Unicode scalar values. -/
abbrev Text := List Nat

/-- Is a UTF-16 code unit a high (leading) surrogate? -/
def isHighSurrogate (u : Nat) : Bool := 0xD800 ≤ u && u ≤ 0xDBFF

/-- Is a UTF-16 code unit a low (trailing) surrogate? -/
def isLowSurrogate (u : Nat) : Bool := 0xDC00 ≤ u && u ≤ 0xDFFF

/-- Combine a surrogate pair into a Unicode scalar value. -/
def combineSurrogates (u v : Nat) : Nat :=
  0x10000 + (u - 0xD800) * 0x400 + (v - 0xDC00)

/-- UTF-16 decoding as performed by `String::from_utf16`: fails (returns
`none`) exactly on an unpaired surrogate, otherwise yields the scalar
values. -/
def decodeUtf16 : List Nat → Option Text
  | [] => some []
  | [u] =>
    if isHighSurrogate u || isLowSurrogate u then none else (some [u])
  | u :: v :: rest =>
    if isHighSurrogate u then
      if isLowSurrogate v then
        (decodeUtf16 rest).map (fun cs => combineSurrogates u v :: cs)
      else none
    else if isLowSurrogate u then none
    else (decodeUtf16 (v :: rest)).map (fun cs => u :: cs)

/-- A structured OS error: code plus message, as carried by
`windows::core::Error` (for shell calls) or `std::io::Error` (for the
registry). Kept whole so that theorems can state that error detail is
propagated verbatim. -/
structure OsError where
  code : Nat
  message : String
deriving DecidableEq

/-- Error produced by a folder lookup helper: either the OS call itself
failed, or the returned buffer failed UTF-16 decoding
(`FromUtf16Error`, converted by `?` into the function's error type). -/
inductive FolderError where
  | osError (e : OsError)
  | decodeFailed
deriving DecidableEq

/-- One reported item: a resolved path or an unavailability reason, as
printed by the source (`path_item` is either the path or `[{e}]`). -/
inductive PathItem where
  | found (path : Text)
  | unavailable (e : FolderError)
deriving DecidableEq

/-! ## Environment resolver (`report_environment_variables`) -/

/-- Error from `std::env::var`: `VarError::NotPresent` or
`VarError::NotUnicode(os_string)`. -/
inductive VarError where
  | notPresent
  | notUnicode (raw : WStr)
deriving DecidableEq

/-- The ambient process environment, as consulted by `std::env::var`. -/
structure EnvOs where
  var : String → Except VarError String

/-- One printed environment entry: the value or the formatted error. -/
inductive EnvItem where
  | found (value : String)
  | unavailable (e : VarError)
deriving DecidableEq

/-- The fixed `names` array of `report_environment_variables`. -/
def environment_variable_names : List String :=
  ["ProgramFiles", "ProgramFiles(Arm)", "ProgramFiles(x86)", "ProgramW6432"]

/-- Embedding of `report_environment_variables`: one `(name, item)` line per
fixed name, in declaration order; `std::env::var` errors are rendered inline
via `unwrap_or_else`, never escalated. -/
def report_environment_variables (os : EnvOs) : List (String × EnvItem) :=
  environment_variable_names.map fun name =>
    (name, match os.var name with
      | .ok v => .found v
      | .error e => .unavailable e)

/-! ## Known-folder resolver (`report_known_folders`) -/

/-- The four known-folder identifiers in the `folders` table. -/
inductive KfId where
  | programFiles
  | programFilesX64
  | programFilesX86
  | userProgramFiles
deriving DecidableEq

/-- The symbolic name printed for each known-folder identifier. -/
def kfSymbol : KfId → String
  | .programFiles => "FOLDERID_ProgramFiles"
  | .programFilesX64 => "FOLDERID_ProgramFilesX64"
  | .programFilesX86 => "FOLDERID_ProgramFilesX86"
  | .userProgramFiles => "FOLDERID_UserProgramFiles"

/-- The `folders` table order of `report_known_folders`. -/
def kfIds : List KfId :=
  [.programFiles, .programFilesX64, .programFilesX86, .userProgramFiles]

/-- The OS facilities consulted by the known-folder resolver:
`SHGetKnownFolderPath` (returning an OS-allocated wide string pointer, whose
contents are `coMem`), and the `known-folders` crate's
`get_known_folder_path` (returning the path as a Windows `PathBuf`, i.e. a
possibly ill-formed UTF-16 string, or `none` on failure). -/
structure KfOs where
  shGetKnownFolderPath : KfId → Except OsError Ptr
  coMem : Ptr → WStr
  getKnownFolderPathLib : KfId → Option WStr

/-- Embedding of `get_known_folder_path_or_detailed_error` together with the
`CoStr` drop semantics: the second component is the trace of pointers passed
to `CoTaskMemFree` during the call. The `CoStr` temporary is dropped at the
end of the `Ok(CoStr::new(pwstr).to_string()?)` statement on both the success
path and the `?` early-return path, so an acquired pointer is freed exactly
once regardless of decode outcome. -/
def get_known_folder_path_or_detailed_error (os : KfOs) (id : KfId) :
    Except FolderError Text × List Ptr :=
  match os.shGetKnownFolderPath id with
  | .error e => (.error (.osError e), [])
  | .ok pwstr =>
    match decodeUtf16 (os.coMem pwstr) with
    | some t => (.ok t, [pwstr])
    | none => (.error .decodeFailed, [pwstr])

/-- Embedding of `get_known_folder_path(kf).and_then(|p| p.to_str().map(String::from))`:
the library result's wide data is decoded; `to_str` yields `None` when the
path is not valid Unicode (an unpaired surrogate). -/
def libPath (os : KfOs) (id : KfId) : Option Text :=
  (os.getKnownFolderPathLib id).bind fun w => decodeUtf16 w

/-- The diagnostic payload of the `panic!` in `report_known_folders`: both
`my_thing` and `lib_thing` exactly as matched. -/
structure Divergence where
  myThing : Except FolderError Text
  libThing : Option Text

/-- Embedding of the `match (path_or_error, maybe_path)` reconciliation in
`report_known_folders`: the guarded first arm, the `(Err, None)` arm, and the
catch-all `panic!` arm (modelled as `Except.error` carrying the payload). -/
def reconcile (path_or_error : Except FolderError Text) (maybe_path : Option Text) :
    Except Divergence PathItem :=
  match path_or_error, maybe_path with
  | .ok my_kf_path, .some lib_kf_path =>
    if my_kf_path = lib_kf_path then .ok (.found my_kf_path)
    else .error ⟨.ok my_kf_path, .some lib_kf_path⟩
  | .error e, .none => .ok (.unavailable e)
  | my_thing, lib_thing => .error ⟨my_thing, lib_thing⟩

/-- Outcome of `report_known_folders`: either the full list of printed
entries, or a panic after printing `produced` entries, carrying the
divergence diagnostic. (The Rust function's `Result` return is always
`Ok(())`; no arm produces an `Err`.) -/
inductive KfOutcome where
  | ok (entries : List (String × PathItem))
  | mismatch (produced : List (String × PathItem)) (d : Divergence)

/-- The loop body of `report_known_folders` over the remaining identifiers,
threading the `CoTaskMemFree` trace. -/
def kfGo (os : KfOs) : List KfId → KfOutcome × List Ptr
  | [] => (.ok [], [])
  | id :: rest =>
    match reconcile (get_known_folder_path_or_detailed_error os id).1 (libPath os id) with
    | .error d => (.mismatch [] d, (get_known_folder_path_or_detailed_error os id).2)
    | .ok item =>
      match kfGo os rest with
      | (.ok es, tr) =>
        (.ok ((kfSymbol id, item) :: es),
          (get_known_folder_path_or_detailed_error os id).2 ++ tr)
      | (.mismatch es d, tr) =>
        (.mismatch ((kfSymbol id, item) :: es) d,
          (get_known_folder_path_or_detailed_error os id).2 ++ tr)

/-- Embedding of `report_known_folders`. -/
def report_known_folders (os : KfOs) : KfOutcome × List Ptr :=
  kfGo os kfIds

/-- The spec's divergence taxonomy, stated independently of `reconcile`:
exactly one strategy succeeds, or both succeed with textually different
paths. -/
def strategiesDisagree (p : Except FolderError Text) (m : Option Text) : Bool :=
  match p, m with
  | .ok a, .some b => decide (a ≠ b)
  | .ok _, .none => true
  | .error _, .some _ => true
  | .error _, .none => false

/-! ## CSIDL resolver (`report_csidl`) -/

/-- `CSIDL_PROGRAM_FILES` (0x26). -/
def CSIDL_PROGRAM_FILES : Nat := 38

/-- `CSIDL_PROGRAM_FILESX86` (0x2a). -/
def CSIDL_PROGRAM_FILESX86 : Nat := 42

/-- The `folders` table of `report_csidl`. -/
def csidlFolders : List (String × Nat) :=
  [("CSIDL_PROGRAM_FILES", CSIDL_PROGRAM_FILES),
   ("CSIDL_PROGRAM_FILESX86", CSIDL_PROGRAM_FILESX86)]

/-- The OS facility consulted by the CSIDL resolver: `SHGetFolderPathW`
with a caller-supplied `MAX_PATH` buffer. On success the oracle yields the
filled buffer contents (NUL-terminated). -/
structure CsidlOs where
  shGetFolderPathW : Nat → Except OsError WStr

/-- Embedding of `try_get_path_from_csidl`: on API success the buffer is read
up to the first NUL (`PCWSTR::to_string`) and UTF-16 decoded, with decode
failure converted by `?` into the function's error type. -/
def try_get_path_from_csidl (os : CsidlOs) (csidl : Nat) : Except FolderError Text :=
  match os.shGetFolderPathW csidl with
  | .error e => .error (.osError e)
  | .ok buffer =>
    match decodeUtf16 (buffer.takeWhile fun u => u ≠ 0) with
    | some t => .ok t
    | none => .error .decodeFailed

/-- Embedding of `report_csidl`: one `(symbol, item)` line per table entry, a
failing lookup rendered inline via `unwrap_or_else`; the function's `Result`
is always `Ok(())`. -/
def report_csidl (os : CsidlOs) : Except OsError (List (String × PathItem)) :=
  .ok (csidlFolders.map fun sf =>
    (sf.1, match try_get_path_from_csidl os sf.2 with
      | .ok p => .found p
      | .error e => .unavailable e))

/-! ## Registry resolver (`report_registry_view`, `report_all_registry_views`) -/

/-- `std::io::Error` as produced by `winreg`: OS error code plus message. -/
structure IoError where
  code : Nat
  message : String
deriving DecidableEq

/-- `KEY_QUERY_VALUE` (0x0001). -/
def KEY_QUERY_VALUE : Nat := 1

/-- `KEY_WOW64_32KEY` (0x0200). -/
def KEY_WOW64_32KEY : Nat := 512

/-- `KEY_WOW64_64KEY` (0x0100). -/
def KEY_WOW64_64KEY : Nat := 256

/-- The registry facility: opening the fixed
`HKLM\SOFTWARE\Microsoft\Windows\CurrentVersion` subkey with given access
flags yields a key handle or an error; reading a named value from a handle
yields the string data or an error. -/
structure RegOs where
  open_subkey_with_flags : Nat → Except IoError Ptr
  get_value : Ptr → String → Except IoError String

/-- The `key_names` table of `report_registry_view`. -/
def registry_key_names : List String :=
  ["ProgramFilesDir", "ProgramFilesDir (Arm)", "ProgramFilesDir (x86)",
   "ProgramW6432Dir"]

/-- One registry value line: the data or the formatted per-value error. -/
inductive RegItem where
  | found (value : String)
  | unavailable (e : IoError)
deriving DecidableEq

/-- One printed line of a registry view report: the caption header or a
value entry. The header is printed only after the key has been opened. -/
inductive RegLine where
  | header (caption : String)
  | entry (name : String) (item : RegItem)
deriving DecidableEq

/-- Embedding of `report_registry_view`: the key is opened (with
`KEY_QUERY_VALUE` OR-ed with the view flag) before anything is printed; on
open failure the error propagates via `?` and no line is produced. Per-value
failures are rendered inline via `unwrap_or_else`. -/
def report_registry_view (os : RegOs) (caption : String) (flag_for_view : Nat) :
    Except IoError (List RegLine) :=
  match os.open_subkey_with_flags (Nat.lor KEY_QUERY_VALUE flag_for_view) with
  | .error e => .error e
  | .ok cur_ver =>
    .ok (RegLine.header caption :: registry_key_names.map fun key_name =>
      RegLine.entry key_name (match os.get_value cur_ver key_name with
        | .ok v => .found v
        | .error e => .unavailable e))

/-- The `views` table of `report_all_registry_views`, in source order. -/
def registry_views : List (String × Nat) :=
  [("default view", 0), ("KEY_WOW64_32KEY", KEY_WOW64_32KEY),
   ("KEY_WOW64_64KEY", KEY_WOW64_64KEY)]

/-- The loop of `report_all_registry_views` over the remaining views: each
view's report is printed as it completes; the first failure stops the loop
via `?`, leaving the already-printed reports and the propagated error. -/
def regGo (os : RegOs) : List (String × Nat) → List (String × List RegLine) × Option IoError
  | [] => ([], none)
  | v :: rest =>
    match report_registry_view os v.1 v.2 with
    | .error e => ([], some e)
    | .ok lines =>
      let r := regGo os rest
      ((v.1, lines) :: r.1, r.2)

/-- Embedding of `report_all_registry_views`: the produced per-view reports
plus the propagated key-open failure, if any. -/
def report_all_registry_views (os : RegOs) : List (String × List RegLine) × Option IoError :=
  regGo os registry_views

/-! ## Idempotence harness -/

/-- Two immediately successive calls of a resolver against the same ambient
OS state. -/
def call_twice {σ α : Type} (f : σ → α) (s : σ) : α × α := (f s, f s)

/-! ## Auxiliary notions used only to state the theorems -/

/-- The pointers acquired from `SHGetKnownFolderPath` over a list of
identifiers, in order. -/
def acquired_pointers (os : KfOs) (ids : List KfId) : List Ptr :=
  ids.filterMap fun id =>
    match os.shGetKnownFolderPath id with
    | .ok p => some p
    | .error _ => none

/-- The identifiers whose loop iteration actually runs: everything up to and
including the first diverging identifier, or the whole list when none
diverges. -/
def processed_ids (os : KfOs) : List KfId → List KfId
  | [] => []
  | id :: rest =>
    match reconcile (get_known_folder_path_or_detailed_error os id).1 (libPath os id) with
    | .error _ => [id]
    | .ok _ => id :: processed_ids os rest

/-- The lines a registry view's report prints when its key opens, and
nothing when it does not. -/
def producedLines (os : RegOs) (v : String × Nat) : List RegLine :=
  match report_registry_view os v.1 v.2 with
  | .ok lines => lines
  | .error _ => []

/-! ## Helper lemmas -/

lemma get_kf_trace (os : KfOs) (id : KfId) :
    (get_known_folder_path_or_detailed_error os id).2 =
      match os.shGetKnownFolderPath id with
      | .ok p => [p]
      | .error _ => [] := by
  cases h : os.shGetKnownFolderPath id <;>
    simp only [get_known_folder_path_or_detailed_error, h]
  cases h2 : decodeUtf16 (os.coMem _) <;> simp [h2]

lemma reconcile_of_disagree (p : Except FolderError Text) (m : Option Text)
    (h : strategiesDisagree p m = true) : reconcile p m = .error ⟨p, m⟩ := by
  cases p <;> cases m <;> simp_all [strategiesDisagree, reconcile]

lemma reconcile_of_agree (p : Except FolderError Text) (m : Option Text)
    (h : strategiesDisagree p m = false) : ∃ item, reconcile p m = .ok item := by
  cases p <;> cases m <;> simp_all [strategiesDisagree, reconcile]

lemma kfGo_mismatch (os : KfOs) (pre : List KfId) (id : KfId) (post : List KfId)
    (hpre : ∀ j ∈ pre,
      strategiesDisagree (get_known_folder_path_or_detailed_error os j).1 (libPath os j) = false)
    (hdiv : strategiesDisagree (get_known_folder_path_or_detailed_error os id).1
      (libPath os id) = true) :
    ∃ es, (kfGo os (pre ++ id :: post)).1 =
      .mismatch es ⟨(get_known_folder_path_or_detailed_error os id).1, libPath os id⟩ := by
  induction pre with
  | nil =>
    refine ⟨[], ?_⟩
    simp [kfGo, reconcile_of_disagree _ _ hdiv]
  | cons j pre ih =>
    have hj := hpre j (List.mem_cons_self j _)
    obtain ⟨item, hitem⟩ := reconcile_of_agree _ _ hj
    obtain ⟨es, hes⟩ := ih fun x hx => hpre x (List.mem_cons_of_mem j hx)
    cases hgo : kfGo os (pre ++ id :: post) with
    | mk o tr =>
      rw [hgo] at hes
      cases o with
      | ok es2 => simp at hes
      | mismatch es2 d =>
        simp only [KfOutcome.mismatch.injEq] at hes
        obtain ⟨rfl, rfl⟩ := hes
        exact ⟨(kfSymbol j, item) :: es2, by simp [kfGo, hitem, hgo]⟩

lemma kfGo_all_agree (os : KfOs) (paths : KfId → Text) (ids : List KfId)
    (hok : ∀ id ∈ ids, (get_known_folder_path_or_detailed_error os id).1 = .ok (paths id))
    (hlib : ∀ id ∈ ids, libPath os id = .some (paths id)) :
    (kfGo os ids).1 = .ok (ids.map fun id => (kfSymbol id, .found (paths id))) := by
  induction ids with
  | nil => rfl
  | cons id rest ih =>
    have hrec : reconcile (get_known_folder_path_or_detailed_error os id).1 (libPath os id) =
        .ok (.found (paths id)) := by
      rw [hok id (List.mem_cons_self id _), hlib id (List.mem_cons_self id _)]
      simp [reconcile]
    have ih2 := ih (fun x hx => hok x (List.mem_cons_of_mem id hx))
      (fun x hx => hlib x (List.mem_cons_of_mem id hx))
    cases hgo : kfGo os rest with
    | mk o tr =>
      rw [hgo] at ih2
      cases o with
      | ok es2 =>
        simp only [KfOutcome.ok.injEq] at ih2
        subst ih2
        simp [kfGo, hrec, hgo]
      | mismatch es2 d => simp at ih2

lemma regGo_fail (os : RegOs) (pre : List (String × Nat)) (v : String × Nat)
    (post : List (String × Nat)) (e : IoError)
    (hpre : ∀ w ∈ pre, ∃ k,
      os.open_subkey_with_flags (Nat.lor KEY_QUERY_VALUE w.2) = .ok k)
    (hfail : os.open_subkey_with_flags (Nat.lor KEY_QUERY_VALUE v.2) = .error e) :
    regGo os (pre ++ v :: post) = (pre.map fun w => (w.1, producedLines os w), some e) := by
  induction pre with
  | nil =>
    simp [regGo, report_registry_view, hfail]
  | cons w pre ih =>
    obtain ⟨k, hk⟩ := hpre w (List.mem_cons_self w _)
    have hview : report_registry_view os w.1 w.2 =
        .ok (RegLine.header w.1 :: registry_key_names.map fun key_name =>
          RegLine.entry key_name (match os.get_value k key_name with
            | .ok val => .found val
            | .error err => .unavailable err)) := by
      simp [report_registry_view, hk]
    have ih2 := ih fun x hx => hpre x (List.mem_cons_of_mem w hx)
    simp [regGo, hview, ih2, producedLines]

lemma kfGo_trace (os : KfOs) (ids : List KfId) :
    (kfGo os ids).2 = acquired_pointers os (processed_ids os ids) := by
  induction ids with
  | nil => rfl
  | cons id rest ih =>
    cases hrec : reconcile (get_known_folder_path_or_detailed_error os id).1 (libPath os id) with
    | error d =>
      simp only [kfGo, hrec, processed_ids, acquired_pointers, get_kf_trace]
      cases hp : os.shGetKnownFolderPath id <;> simp [List.filterMap_cons, hp]
    | ok item =>
      cases hgo : kfGo os rest with
      | mk o tr =>
        cases o <;>
          (simp_all only [kfGo, hrec, processed_ids, acquired_pointers, get_kf_trace,
            List.filterMap_cons]
           cases hp : os.shGetKnownFolderPath id <;> simp [List.filterMap_cons, hp])

/-! ## Concrete stub oracles used by witnesses -/

/-- Stub: both strategies succeed for every identifier, but for
`FOLDERID_ProgramFiles` the library reports `[66]` while the direct call
reports `[65]`. -/
def kfOsDiffering : KfOs where
  shGetKnownFolderPath := fun _ => .ok 0
  coMem := fun _ => [65]
  getKnownFolderPathLib := fun id => if id = KfId.programFiles then some [66] else some [65]

/-- Stub: both strategies agree on the path `[67]` for all four
identifiers. -/
def kfOsMatching : KfOs where
  shGetKnownFolderPath := fun _ => .ok 0
  coMem := fun _ => [67]
  getKnownFolderPathLib := fun _ => some [67]

/-- Stub: both lookups succeed for `FOLDERID_ProgramFiles`, but the library's
path is an unpaired surrogate, so `to_str` fails; all other folders agree. -/
def kfOsSurrogate : KfOs where
  shGetKnownFolderPath := fun _ => .ok 0
  coMem := fun _ => [65]
  getKnownFolderPathLib := fun id => if id = KfId.programFiles then some [0xD800] else some [65]

/-! ## Claim theorems -/

/-- C1: in the known-folder resolver, for every folder identifier, if exactly
one of the two lookup strategies succeeds, or both succeed with textually
different paths, then resolution halts with the fatal `panic!`, whose
diagnostic payload names both reported results (`my_thing` and
`lib_thing`). -/
theorem known_folder_divergence_halts (os : KfOs) (pre post : List KfId) (id : KfId)
    (hsplit : kfIds = pre ++ id :: post)
    (hpre : ∀ j ∈ pre,
      strategiesDisagree (get_known_folder_path_or_detailed_error os j).1 (libPath os j) = false)
    (hdiv : strategiesDisagree (get_known_folder_path_or_detailed_error os id).1
      (libPath os id) = true) :
    ∃ es, (report_known_folders os).1 =
      .mismatch es ⟨(get_known_folder_path_or_detailed_error os id).1, libPath os id⟩ := by
  rw [report_known_folders, hsplit]
  exact kfGo_mismatch os pre id post hpre hdiv

/-- Witness for C1: with the two strategies stubbed to return differing paths
(`[65]` vs `[66]`) for `FOLDERID_ProgramFiles`, resolution halts with a
mismatch naming both values. -/
theorem known_folder_divergence_halts_witness :
    ∃ es, (report_known_folders kfOsDiffering).1 =
      .mismatch es ⟨.ok [65], .some [66]⟩ :=
  known_folder_divergence_halts kfOsDiffering []
    [.programFilesX64, .programFilesX86, .userProgramFiles] .programFiles rfl
    (fun j hj => absurd hj (List.not_mem_nil j)) (by decide)

/-- C2: on every identifier where the two strategies agree, the reconciled
result is fully determined: textually identical successes are reported as
`Found` with exactly that path (so with all four identifiers agreeing, the
report is `Found` for all four with those exact paths), and a double failure
is reported as `Unavailable` carrying the primary strategy's full OS error
detail. -/
theorem known_folder_agreement_determined (os : KfOs) (paths : KfId → Text)
    (hok : ∀ id, (get_known_folder_path_or_detailed_error os id).1 = .ok (paths id))
    (hlib : ∀ id, libPath os id = .some (paths id)) :
    (report_known_folders os).1 =
      .ok (kfIds.map fun id => (kfSymbol id, .found (paths id)))
    ∧ ∀ e, reconcile (.error e) .none = .ok (.unavailable e) := by
  constructor
  · exact kfGo_all_agree os paths kfIds (fun id _ => hok id) (fun id _ => hlib id)
  · intro e
    rfl

/-- Witness for C2: with both strategies stubbed to return the path `[67]`
for all four identifiers, the resolver reports `Found [67]` for all four. -/
theorem known_folder_agreement_determined_witness :
    (report_known_folders kfOsMatching).1 =
      .ok [("FOLDERID_ProgramFiles", .found [67]),
           ("FOLDERID_ProgramFilesX64", .found [67]),
           ("FOLDERID_ProgramFilesX86", .found [67]),
           ("FOLDERID_UserProgramFiles", .found [67])] :=
  (known_folder_agreement_determined kfOsMatching (fun _ => [67])
    (fun _ => rfl) (fun _ => rfl)).1

/-- C3: `CoTaskMemFree` is invoked exactly once per pointer acquired through
`CoStr`, on every exit path. The helper's free trace is exactly the acquired
pointer (also when decoding fails), and the whole resolver's free trace lists
exactly the pointers acquired during the iterations that ran — including the
iteration that ends in the fatal divergence `panic!`, whose pointer is freed
before the panic because the `CoStr` temporary is dropped inside the helper.
No pointer is freed twice and none is leaked. -/
theorem costr_frees_exactly_once (os : KfOs) :
    (∀ id, (get_known_folder_path_or_detailed_error os id).2 =
      match os.shGetKnownFolderPath id with
      | .ok p => [p]
      | .error _ => [])
    ∧ (report_known_folders os).2 = acquired_pointers os (processed_ids os kfIds) :=
  ⟨fun id => get_kf_trace os id, kfGo_trace os kfIds⟩

/-- C9: the fatal-divergence halt triggers even when both underlying lookups
for the same folder identifier succeed: with the primary path decoding
successfully to `[65]` while the library's path for that identifier is the
unpaired surrogate `[0xD800]` (not valid Unicode), `to_str` turns the
secondary result into `none`, and the `(Ok, None)` combination panics as a
mismatch instead of being reported as agreement or as `Unavailable`. -/
theorem ok_none_combination_panics :
    kfOsSurrogate.shGetKnownFolderPath .programFiles = .ok 0
    ∧ (get_known_folder_path_or_detailed_error kfOsSurrogate .programFiles).1 = .ok [65]
    ∧ kfOsSurrogate.getKnownFolderPathLib .programFiles = some [0xD800]
    ∧ decodeUtf16 [0xD800] = none
    ∧ libPath kfOsSurrogate .programFiles = none
    ∧ (report_known_folders kfOsSurrogate).1 = .mismatch [] ⟨.ok [65], .none⟩ :=
  ⟨rfl, rfl, rfl, rfl, rfl, rfl⟩

/-- Stub registry: opening any view of the key is denied. -/
def regOsOpenDenied : RegOs where
  open_subkey_with_flags := fun _ => .error ⟨5, "Access is denied."⟩
  get_value := fun _ _ => .error ⟨2, "The system cannot find the file specified."⟩

/-- Stub registry: key-open fails only for the `KEY_WOW64_64KEY` view; every
value reads as the string `p`. -/
def regOsFail64 : RegOs where
  open_subkey_with_flags := fun flags =>
    if flags = Nat.lor KEY_QUERY_VALUE KEY_WOW64_64KEY
    then .error ⟨5, "Access is denied."⟩ else .ok 0
  get_value := fun _ _ => .ok "p"

/-- Stub environment: only `ProgramFiles` is set. -/
def envOsPartial : EnvOs where
  var := fun name => if name = "ProgramFiles" then .ok "C:\x5cPF" else .error .notPresent

/-- Stub CSIDL facility: the 32-bit-specific identifier fails with OS error
code 2; the generic identifier succeeds. -/
def csidlOsMissingX86 : CsidlOs where
  shGetFolderPathW := fun id =>
    if id = CSIDL_PROGRAM_FILESX86
    then .error ⟨2, "The system cannot find the file specified."⟩
    else .ok [67, 0]

/-- C4: for any single registry view, a key-open failure yields no output at
all for that view (no header, no entry) and propagates the error to the
caller, while with the key open every per-value read failure only yields an
`Unavailable` entry carrying the underlying OS error and the report is still
produced. -/
theorem registry_view_open_failure_propagates (os : RegOs) (caption : String)
    (flag_for_view : Nat) :
    (∀ e, os.open_subkey_with_flags (Nat.lor KEY_QUERY_VALUE flag_for_view) = .error e →
      report_registry_view os caption flag_for_view = .error e)
    ∧ (∀ k, os.open_subkey_with_flags (Nat.lor KEY_QUERY_VALUE flag_for_view) = .ok k →
      report_registry_view os caption flag_for_view =
        .ok (RegLine.header caption :: registry_key_names.map fun key_name =>
          RegLine.entry key_name (match os.get_value k key_name with
            | .ok v => .found v
            | .error e => .unavailable e))) := by
  constructor
  · intro e he
    simp [report_registry_view, he]
  · intro k hk
    simp [report_registry_view, hk]

/-- Witness for C4: with key-open denied, the view's report is exactly the
propagated error, with no lines produced. -/
theorem registry_view_open_failure_propagates_witness :
    report_registry_view regOsOpenDenied "default view" 0 = .error ⟨5, "Access is denied."⟩ :=
  (registry_view_open_failure_propagates regOsOpenDenied "default view" 0).1
    ⟨5, "Access is denied."⟩ rfl

/-- C5: `report_all_registry_views` processes exactly the three views in the
fixed order default view, `KEY_WOW64_32KEY`, `KEY_WOW64_64KEY`, and on the
first key-open failure it stops: reports of the views processed earlier are
produced, the failure is propagated, and no report exists for the failing
view or any later one. -/
theorem all_registry_views_stop_on_first_failure (os : RegOs)
    (pre post : List (String × Nat)) (v : String × Nat) (e : IoError)
    (hsplit : registry_views = pre ++ v :: post)
    (hpre : ∀ w ∈ pre, ∃ k,
      os.open_subkey_with_flags (Nat.lor KEY_QUERY_VALUE w.2) = .ok k)
    (hfail : os.open_subkey_with_flags (Nat.lor KEY_QUERY_VALUE v.2) = .error e) :
    registry_views =
      [("default view", 0), ("KEY_WOW64_32KEY", 512), ("KEY_WOW64_64KEY", 256)]
    ∧ report_all_registry_views os =
      (pre.map fun w => (w.1, producedLines os w), some e) := by
  refine ⟨rfl, ?_⟩
  rw [report_all_registry_views, hsplit]
  exact regGo_fail os pre v post e hpre hfail

/-- Witness for C5: with key-open stubbed to fail only for the
`KEY_WOW64_64KEY` view, the first two views' reports are produced and the
failure is propagated without any report for the failing view. -/
theorem all_registry_views_stop_on_first_failure_witness :
    registry_views =
      [("default view", 0), ("KEY_WOW64_32KEY", 512), ("KEY_WOW64_64KEY", 256)]
    ∧ report_all_registry_views regOsFail64 =
      ([("default view", producedLines regOsFail64 ("default view", 0)),
        ("KEY_WOW64_32KEY", producedLines regOsFail64 ("KEY_WOW64_32KEY", 512))],
       some ⟨5, "Access is denied."⟩) :=
  all_registry_views_stop_on_first_failure regOsFail64
    [("default view", 0), ("KEY_WOW64_32KEY", 512)] [] ("KEY_WOW64_64KEY", 256)
    ⟨5, "Access is denied."⟩ rfl
    (by
      intro w hw
      simp only [List.mem_cons, List.not_mem_nil, or_false] at hw
      rcases hw with rfl | rfl
      · exact ⟨0, rfl⟩
      · exact ⟨0, rfl⟩)
    rfl

/-- C6: the environment resolver produces exactly one `(label, result)` entry
for each of the four fixed variable names, in declaration order, with no
omissions and no duplicates; an absent or malformed variable is reported as
`Unavailable` carrying the `VarError` (which distinguishes `NotPresent` from
`NotUnicode`), never as a fatal error — the function is total and returns the
full report for every ambient environment. -/
theorem environment_report_complete (os : EnvOs) :
    environment_variable_names =
      ["ProgramFiles", "ProgramFiles(Arm)", "ProgramFiles(x86)", "ProgramW6432"]
    ∧ environment_variable_names.Nodup
    ∧ (report_environment_variables os).map Prod.fst = environment_variable_names
    ∧ (∀ name value, name ∈ environment_variable_names → os.var name = .ok value →
        (name, EnvItem.found value) ∈ report_environment_variables os)
    ∧ (∀ name e, name ∈ environment_variable_names → os.var name = .error e →
        (name, EnvItem.unavailable e) ∈ report_environment_variables os) := by
  refine ⟨rfl, by decide, rfl, ?_, ?_⟩
  · intro name value hmem hvar
    have : (name, EnvItem.found value) =
        (name, match os.var name with
          | .ok v => EnvItem.found v
          | .error e => EnvItem.unavailable e) := by rw [hvar]
    rw [this]
    exact List.mem_map_of_mem _ hmem
  · intro name e hmem hvar
    have : (name, EnvItem.unavailable e) =
        (name, match os.var name with
          | .ok v => EnvItem.found v
          | .error err => EnvItem.unavailable err) := by rw [hvar]
    rw [this]
    exact List.mem_map_of_mem _ hmem

/-- Witness for C6: with only `ProgramFiles` set, the report contains a
`Found` entry for it and an `Unavailable NotPresent` entry for
`ProgramFiles(Arm)`. -/
theorem environment_report_complete_witness :
    ("ProgramFiles", EnvItem.found "C:\x5cPF") ∈ report_environment_variables envOsPartial
    ∧ ("ProgramFiles(Arm)", EnvItem.unavailable .notPresent) ∈
        report_environment_variables envOsPartial :=
  ⟨(environment_report_complete envOsPartial).2.2.2.1 "ProgramFiles" "C:\x5cPF"
      (List.Mem.head _) rfl,
   (environment_report_complete envOsPartial).2.2.2.2 "ProgramFiles(Arm)" .notPresent
      (List.Mem.tail _ (List.Mem.head _)) rfl⟩

/-- C7: in the CSIDL resolver, when the OS folder-path call for one of the
two identifiers fails, the reported entry is `Unavailable` carrying the
original OS error (code and message) verbatim. -/
theorem csidl_failure_preserves_os_error (os : CsidlOs) (symbol : String) (id : Nat)
    (e : OsError) (hmem : (symbol, id) ∈ csidlFolders)
    (hfail : os.shGetFolderPathW id = .error e) :
    ∃ entries, report_csidl os = .ok entries
      ∧ (symbol, PathItem.unavailable (.osError e)) ∈ entries := by
  refine ⟨_, rfl, ?_⟩
  have : (symbol, PathItem.unavailable (.osError e)) =
      (symbol, match try_get_path_from_csidl os id with
        | .ok p => PathItem.found p
        | .error err => PathItem.unavailable err) := by
    simp [try_get_path_from_csidl, hfail]
  rw [this]
  exact List.mem_map_of_mem _ hmem

/-- Witness for C7: with `SHGetFolderPathW` failing for
`CSIDL_PROGRAM_FILESX86` with OS error code 2, the resolver reports
`Unavailable` carrying exactly that code and message. -/
theorem csidl_failure_preserves_os_error_witness :
    ∃ entries, report_csidl csidlOsMissingX86 = .ok entries
      ∧ ("CSIDL_PROGRAM_FILESX86",
          PathItem.unavailable (.osError ⟨2, "The system cannot find the file specified."⟩))
        ∈ entries :=
  csidl_failure_preserves_os_error csidlOsMissingX86 "CSIDL_PROGRAM_FILESX86"
    CSIDL_PROGRAM_FILESX86 ⟨2, "The system cannot find the file specified."⟩
    (List.Mem.tail _ (List.Mem.head _)) rfl

/-- C8: every resolve-style operation is idempotent: two immediately
successive calls against the same ambient OS state (the oracles unchanged
between them) return identical results, because each embedded resolver is a
deterministic function of the consulted OS state with no mutable state of its
own. -/
theorem resolvers_idempotent (envOs : EnvOs) (kfOs : KfOs) (csOs : CsidlOs)
    (regOs : RegOs) (caption : String) (flag_for_view : Nat) :
    (call_twice report_environment_variables envOs).1 =
      (call_twice report_environment_variables envOs).2
    ∧ (call_twice report_known_folders kfOs).1 = (call_twice report_known_folders kfOs).2
    ∧ (call_twice report_csidl csOs).1 = (call_twice report_csidl csOs).2
    ∧ (call_twice (fun os => report_registry_view os caption flag_for_view) regOs).1 =
        (call_twice (fun os => report_registry_view os caption flag_for_view) regOs).2
    ∧ (call_twice report_all_registry_views regOs).1 =
        (call_twice report_all_registry_views regOs).2 :=
  ⟨rfl, rfl, rfl, rfl, rfl⟩

/-- Stub registry for C10: key-open always fails with error code 6. -/
def regOsInvalidHandle : RegOs where
  open_subkey_with_flags := fun _ => .error ⟨6, "The handle is invalid."⟩
  get_value := fun _ _ => .ok "p"

/-- C10: `report_known_folders` and `report_csidl` never return an error
value despite their `Result` return types: for every ambient OS behavior the
known-folder resolver either completes with its entries or exits through the
divergence `panic!`, and the CSIDL resolver always returns `Ok` with its
entries; the only reachable error return among the resolvers is the registry
key-open failure. -/
theorem only_registry_error_return_reachable :
    (∀ os : KfOs, (∃ es, (report_known_folders os).1 = .ok es)
      ∨ ∃ es d, (report_known_folders os).1 = .mismatch es d)
    ∧ (∀ os : CsidlOs, ∃ es, report_csidl os = .ok es)
    ∧ (∃ os : RegOs, ∃ e, report_registry_view os "default view" 0 = .error e) := by
  refine ⟨?_, ?_, ?_⟩
  · intro os
    cases h : (report_known_folders os).1 with
    | ok es => exact Or.inl ⟨es, rfl⟩
    | mismatch es d => exact Or.inr ⟨es, d, rfl⟩
  · intro os
    exact ⟨_, rfl⟩
  · exact ⟨regOsInvalidHandle, ⟨6, "The handle is invalid."⟩, rfl⟩
